import Mathlib

/-!
Shallow embedding of the gralloc buffer-handle manager
(`gralloc_priv.h` and `gralloc_module.cpp`).

The build configuration is fixed by `gralloc_priv.h`:
`GRALLOC_ARM_UMP_MODULE = 0` and `GRALLOC_ARM_DMA_BUF_MODULE = 1`,
so the UMP blocks are compiled out and the DMA-BUF (ION) blocks are in.

External collaborators (the kernel allocator's mmap/munmap, the backend
register call from `gralloc_module_allocator_specific.h`, the host module
registry lookup `hw_get_module`, and `getpid`) are modelled as explicit
parameters: the embedding covers exactly the decision logic of this
repository's two source files.
-/

namespace Gralloc

/-- Errno constant `EINVAL`; the operations return `-EINVAL` on failure. -/
def EINVAL : Int := 22

/-- Configuration constants from `gralloc_priv.h` (UMP off, DMA-BUF on). -/
def GRALLOC_ARM_UMP_NUM_INTS : Nat := 0

def GRALLOC_ARM_NUM_FDS : Nat := 1

def GRALLOC_ARM_DMA_BUF_NUM_INTS : Nat := 2

/-- `private_handle_t::sNumInts = 15 + GRALLOC_ARM_UMP_NUM_INTS + GRALLOC_ARM_DMA_BUF_NUM_INTS`. -/
def sNumInts : Nat := 15 + GRALLOC_ARM_UMP_NUM_INTS + GRALLOC_ARM_DMA_BUF_NUM_INTS

/-- `private_handle_t::sNumFds = GRALLOC_ARM_NUM_FDS`. -/
def sNumFds : Nat := GRALLOC_ARM_NUM_FDS

/-- `private_handle_t::sMagic = 0x3141592`. -/
def sMagic : Nat := 0x3141592

/-- Size in bytes of the generic `native_handle` header
(`int version; int numFds; int numInts;`), the value compared against
`h->version` in `validate`. -/
def sizeof_native_handle : Nat := 12

/-- `private_handle_t` flag bits. -/
def PRIV_FLAGS_FRAMEBUFFER : Nat := 0x00000001

def PRIV_FLAGS_USES_ION_COMPOUND_HEAP : Nat := 0x00000002

def PRIV_FLAGS_USES_ION : Nat := 0x00000004

def PRIV_FLAGS_USES_ION_DMA_HEAP : Nat := 0x00000008

/-- Usage bit masks from the Android `hardware/gralloc.h` interface header
(an external interface of this system): the CPU read and CPU write masks
tested by `gralloc_lock`. -/
def GRALLOC_USAGE_SW_READ_MASK : Nat := 0x0000000F

def GRALLOC_USAGE_SW_WRITE_MASK : Nat := 0x000000F0

/-- The `private_handle_t` struct: the inherited `native_handle` transport
envelope (`version`, `numFds`, `numInts`) followed by the fields of
`gralloc_priv.h`.  Pointer-valued fields (`base`, `attr_base`) are modelled
as addresses. -/
structure PrivateHandle where
  version : Nat
  numFds : Nat
  numInts : Nat
  share_fd : Int
  share_attr_fd : Int
  ion_hnd : Int
  magic : Nat
  internal_format : Nat
  flags : Nat
  usage : Nat
  size : Int
  width : Int
  height : Int
  format : Int
  stride : Int
  base : Nat
  lockState : Nat
  writeOwner : Nat
  pid : Nat
  attr_base : Nat
  yuv_info : Nat
  fd : Int
  offset : Int
  min_pgsz : Int
deriving DecidableEq

/-- `private_handle_t::validate`: fails (`-EINVAL`) on a null handle, or
when the envelope `version` differs from `sizeof(native_handle)`, or when
`numInts`, `numFds` or `magic` differ from the fixed constants; returns `0`
otherwise.  A null pointer argument is modelled as `none`. -/
def validate (h : Option PrivateHandle) : Int :=
  match h with
  | none => -EINVAL
  | some hnd =>
    if hnd.version ≠ sizeof_native_handle ∨ hnd.numInts ≠ sNumInts ∨
        hnd.numFds ≠ sNumFds ∨ hnd.magic ≠ sMagic then
      -EINVAL
    else
      0

/-- `private_handle_t::dynamicCast`: the typed view if `validate` succeeds,
`NULL` (`none`) otherwise. -/
def dynamicCast (h : Option PrivateHandle) : Option PrivateHandle :=
  if validate h = 0 then h else none

/-- `gralloc_register_buffer`.  `backend` is the external
`gralloc_backend_register` call (it may mutate the handle and returns a
status); `callerPid` is `getpid()`.  The UMP open block is compiled out.
Note that `hnd->pid = getpid()` executes before any flag check. -/
def gralloc_register_buffer (backend : PrivateHandle → Int × PrivateHandle)
    (callerPid : Nat) (handle : Option PrivateHandle) : Int × Option PrivateHandle :=
  if validate handle < 0 then
    (-EINVAL, handle)
  else
    match handle with
    | none => (-EINVAL, none)
    | some hnd0 =>
      let hnd := { hnd0 with pid := callerPid }
      if hnd.flags &&& PRIV_FLAGS_FRAMEBUFFER ≠ 0 then
        (-EINVAL, some hnd)
      else if hnd.flags &&& PRIV_FLAGS_USES_ION ≠ 0 then
        let r := backend hnd
        (r.1, some r.2)
      else
        (-EINVAL, some hnd)

/-- `gralloc_unregister_buffer`.  `munmapOk` is the outcome of the external
`munmap` call; the code only logs it, so the result never depends on it.
The still-locked diagnostic (`AERR_IF`) is log-only and has no effect. -/
def gralloc_unregister_buffer (callerPid : Nat) (munmapOk : Bool)
    (handle : Option PrivateHandle) : Int × Option PrivateHandle :=
  if validate handle < 0 then
    (-EINVAL, handle)
  else
    match handle with
    | none => (-EINVAL, none)
    | some hnd =>
      if hnd.flags &&& PRIV_FLAGS_FRAMEBUFFER ≠ 0 then
        (0, some hnd)
      else if hnd.pid = callerPid then
        let _ := munmapOk
        (0, some { hnd with base := 0, lockState := 0, writeOwner := 0 })
      else
        (0, some hnd)

/-- Result of `gralloc_lock`: return status, the handle after the call, and
the value stored through `*vaddr` (`none` when the code does not write it). -/
structure LockResult where
  result : Int
  handle : Option PrivateHandle
  vaddr : Option Nat
deriving DecidableEq

/-- `gralloc_lock`.  The region arguments `l, t, w, h` are unused by the
code and omitted.  On an ION-flagged handle `writeOwner` is assigned
`usage & GRALLOC_USAGE_SW_WRITE_MASK`; `*vaddr` is written with `base`
exactly when `usage` intersects the CPU read or write masks. -/
def gralloc_lock (handle : Option PrivateHandle) (usage : Nat) : LockResult :=
  if validate handle < 0 then
    ⟨-EINVAL, handle, none⟩
  else
    match handle with
    | none => ⟨-EINVAL, none, none⟩
    | some hnd0 =>
      let hnd :=
        if hnd0.flags &&& PRIV_FLAGS_USES_ION ≠ 0 then
          { hnd0 with writeOwner := usage &&& GRALLOC_USAGE_SW_WRITE_MASK }
        else
          hnd0
      let vaddr :=
        if usage &&& (GRALLOC_USAGE_SW_READ_MASK ||| GRALLOC_USAGE_SW_WRITE_MASK) ≠ 0 then
          some hnd.base
        else
          none
      ⟨0, some hnd, vaddr⟩

/-- Result of `gralloc_unlock`: return status, the handle after the call,
and whether the external cache-sync call `ion_sync_fd` was issued. -/
structure UnlockResult where
  result : Int
  handle : Option PrivateHandle
  syncCalled : Bool
deriving DecidableEq

/-- `gralloc_unlock`.  `moduleResolved` is the outcome of the external
`hw_get_module` registry lookup; `ion_sync_fd` is issued when the handle is
ION-flagged, `writeOwner` is nonzero, and the lookup succeeded. -/
def gralloc_unlock (moduleResolved : Bool) (handle : Option PrivateHandle) : UnlockResult :=
  if validate handle < 0 then
    ⟨-EINVAL, handle, false⟩
  else
    match handle with
    | none => ⟨-EINVAL, none, false⟩
    | some hnd =>
      if hnd.flags &&& PRIV_FLAGS_USES_ION ≠ 0 ∧ hnd.writeOwner ≠ 0 then
        ⟨0, some hnd, moduleResolved⟩
      else
        ⟨0, some hnd, false⟩

/-- A well-formed ION-backed handle used to instantiate witness theorems. -/
def testHandle : PrivateHandle where
  version := 12
  numFds := 1
  numInts := 17
  share_fd := 3
  share_attr_fd := 4
  ion_hnd := 7
  magic := 0x3141592
  internal_format := 0
  flags := 0x00000004
  usage := 0
  size := 4096
  width := 64
  height := 64
  format := 1
  stride := 64
  base := 0x7000
  lockState := 0
  writeOwner := 0
  pid := 1000
  attr_base := 0
  yuv_info := 0
  fd := 0
  offset := 0
  min_pgsz := 4096

/-- A well-formed framebuffer-flagged handle, recorded as registered by
process 999, used for the framebuffer-path claims. -/
def fbHandle : PrivateHandle :=
  { testHandle with flags := 0x00000001, pid := 999 }

/-! Helper lemmas about `validate`. -/

theorem validate_some_eq_zero_iff (hnd : PrivateHandle) :
    validate (some hnd) = 0 ↔
      hnd.version = sizeof_native_handle ∧ hnd.numInts = sNumInts ∧
        hnd.numFds = sNumFds ∧ hnd.magic = sMagic := by
  simp only [validate]
  by_cases hc : hnd.version ≠ sizeof_native_handle ∨ hnd.numInts ≠ sNumInts ∨
      hnd.numFds ≠ sNumFds ∨ hnd.magic ≠ sMagic
  · rw [if_pos hc]
    constructor
    · intro h0
      exact absurd h0 (by norm_num [EINVAL])
    · rintro ⟨h1, h2, h3, h4⟩
      rcases hc with h | h | h | h <;> contradiction
  · rw [if_neg hc]
    push_neg at hc
    simpa using hc

theorem validate_cases (h : Option PrivateHandle) :
    validate h = 0 ∨ validate h = -EINVAL := by
  cases h with
  | none => exact Or.inr rfl
  | some hnd =>
    simp only [validate]
    split
    · exact Or.inr rfl
    · exact Or.inl rfl

theorem validate_not_lt_of_eq_zero {h : Option PrivateHandle}
    (hv : validate h = 0) : ¬ validate h < 0 := by
  rw [hv]
  exact lt_irrefl 0

theorem validate_lt_of_ne_zero {h : Option PrivateHandle}
    (hv : validate h ≠ 0) : validate h < 0 := by
  rcases validate_cases h with h0 | he
  · exact absurd h0 hv
  · rw [he]
    norm_num [EINVAL]

/-! Reduction lemmas: each operation on a handle that passes `validate`. -/

theorem ite_writeOwner_base (c : Prop) [Decidable c] (hnd : PrivateHandle) (w : Nat) :
    (if c then { hnd with writeOwner := w } else hnd).base = hnd.base := by
  split <;> rfl

theorem gralloc_register_buffer_valid (backend : PrivateHandle → Int × PrivateHandle)
    (callerPid : Nat) (hnd : PrivateHandle) (hv : validate (some hnd) = 0) :
    gralloc_register_buffer backend callerPid (some hnd) =
      if hnd.flags &&& PRIV_FLAGS_FRAMEBUFFER ≠ 0 then
        (-EINVAL, some { hnd with pid := callerPid })
      else if hnd.flags &&& PRIV_FLAGS_USES_ION ≠ 0 then
        ((backend { hnd with pid := callerPid }).1, some (backend { hnd with pid := callerPid }).2)
      else
        (-EINVAL, some { hnd with pid := callerPid }) := by
  have hnl := validate_not_lt_of_eq_zero hv
  simp [gralloc_register_buffer, hnl]

theorem gralloc_unregister_buffer_valid (callerPid : Nat) (munmapOk : Bool)
    (hnd : PrivateHandle) (hv : validate (some hnd) = 0) :
    gralloc_unregister_buffer callerPid munmapOk (some hnd) =
      if hnd.flags &&& PRIV_FLAGS_FRAMEBUFFER ≠ 0 then
        (0, some hnd)
      else if hnd.pid = callerPid then
        (0, some { hnd with base := 0, lockState := 0, writeOwner := 0 })
      else
        (0, some hnd) := by
  have hnl := validate_not_lt_of_eq_zero hv
  simp [gralloc_unregister_buffer, hnl]

theorem gralloc_lock_valid (hnd : PrivateHandle) (usage : Nat)
    (hv : validate (some hnd) = 0) :
    gralloc_lock (some hnd) usage =
      ⟨0,
        some (if hnd.flags &&& PRIV_FLAGS_USES_ION ≠ 0 then
            { hnd with writeOwner := usage &&& GRALLOC_USAGE_SW_WRITE_MASK }
          else hnd),
        if usage &&& (GRALLOC_USAGE_SW_READ_MASK ||| GRALLOC_USAGE_SW_WRITE_MASK) ≠ 0 then
          some hnd.base
        else none⟩ := by
  have hnl := validate_not_lt_of_eq_zero hv
  simp [gralloc_lock, hnl]
  split
  · rfl
  · congr 1
    split <;> rfl

theorem gralloc_unlock_valid (moduleResolved : Bool) (hnd : PrivateHandle)
    (hv : validate (some hnd) = 0) :
    gralloc_unlock moduleResolved (some hnd) =
      if hnd.flags &&& PRIV_FLAGS_USES_ION ≠ 0 ∧ hnd.writeOwner ≠ 0 then
        ⟨0, some hnd, moduleResolved⟩
      else
        ⟨0, some hnd, false⟩ := by
  have hnl := validate_not_lt_of_eq_zero hv
  simp [gralloc_unlock, hnl]

/-- Validity of a handle is preserved by zeroing the mapping fields, since
`validate` only reads the envelope and `magic`. -/
theorem validate_zeroed (hnd : PrivateHandle) (hv : validate (some hnd) = 0) :
    validate (some { hnd with base := 0, lockState := 0, writeOwner := 0 }) = 0 := by
  rw [validate_some_eq_zero_iff] at hv ⊢
  simpa using hv

/-- Validity of a handle is preserved by overwriting `writeOwner`. -/
theorem validate_writeOwner (hnd : PrivateHandle) (w : Nat)
    (hv : validate (some hnd) = 0) :
    validate (some { hnd with writeOwner := w }) = 0 := by
  rw [validate_some_eq_zero_iff] at hv ⊢
  simpa using hv

/-- A framebuffer-flagged handle whose version field is corrupted; the
three spec-named fields still match. -/
def badVersionHandle : PrivateHandle :=
  { testHandle with version := 0 }

/-- A trivial stand-in for the external backend register call, used only to
instantiate witnesses on paths that never reach the backend. -/
def noopBackend : PrivateHandle → Int × PrivateHandle :=
  fun h => (0, h)

/-- C1 counterexample: a handle whose magic, declared integer count and
declared descriptor count all equal the fixed constants, yet `validate`
fails, because the envelope version field is corrupted.  So matching the
three spec-named fields is not sufficient for `validate` to succeed. -/
theorem validate_three_field_iff_cex :
    badVersionHandle.magic = sMagic ∧ badVersionHandle.numInts = sNumInts ∧
      badVersionHandle.numFds = sNumFds ∧ validate (some badVersionHandle) ≠ 0 := by
  decide

/-- C1 (amended): `validate` succeeds if and only if the handle is non-null
and its version, declared integer count, declared descriptor count, and
magic all equal the fixed constants (`sizeof(native_handle)`, `sNumInts`,
`sNumFds`, `sMagic`) simultaneously; a mismatch in any single one of them
makes `validate` fail with the invalid-handle error `-EINVAL`. -/
theorem validate_succeeds_iff (h : Option PrivateHandle) :
    (validate h = 0 ↔
      ∃ hnd, h = some hnd ∧ hnd.version = sizeof_native_handle ∧
        hnd.numInts = sNumInts ∧ hnd.numFds = sNumFds ∧ hnd.magic = sMagic) ∧
    (validate h ≠ 0 → validate h = -EINVAL) := by
  constructor
  · cases h with
    | none =>
      constructor
      · intro h0
        exact absurd h0 (by norm_num [validate, EINVAL])
      · rintro ⟨hnd, hcontra, -⟩
        exact Option.noConfusion hcontra
    | some hnd =>
      rw [validate_some_eq_zero_iff]
      constructor
      · intro hc
        exact ⟨hnd, rfl, hc⟩
      · rintro ⟨hnd2, heq, hc⟩
        injection heq with h2
        subst h2
        exact hc
  · intro hne
    rcases validate_cases h with h0 | he
    · exact absurd h0 hne
    · exact he

/-- Witness for the amended C1 theorem at a concrete valid handle. -/
theorem validate_succeeds_iff_witness :
    (validate (some testHandle) = 0 ↔
      ∃ hnd, some testHandle = some hnd ∧ hnd.version = sizeof_native_handle ∧
        hnd.numInts = sNumInts ∧ hnd.numFds = sNumFds ∧ hnd.magic = sMagic) ∧
    (validate (some testHandle) ≠ 0 → validate (some testHandle) = -EINVAL) :=
  validate_succeeds_iff (some testHandle)

/-- C9: beyond the three spec-named fields, `validate` rejects a null
handle and any handle whose envelope version differs from
`sizeof(native_handle)`, even when magic, integer count and descriptor
count all match; `dynamicCast` consequently returns no typed view. -/
theorem validate_rejects_null_and_bad_version (hnd : PrivateHandle)
    (hm : hnd.magic = sMagic) (hi : hnd.numInts = sNumInts)
    (hf : hnd.numFds = sNumFds) (hv : hnd.version ≠ sizeof_native_handle) :
    validate (some hnd) = -EINVAL ∧ dynamicCast (some hnd) = none ∧
      validate none = -EINVAL ∧ dynamicCast none = none := by
  have hval : validate (some hnd) = -EINVAL := by
    simp only [validate]
    rw [if_pos (Or.inl hv)]
  refine ⟨hval, ?_, rfl, ?_⟩
  · simp only [dynamicCast, hval]
    rw [if_neg (by norm_num [EINVAL])]
  · simp only [dynamicCast]
    rw [if_neg (by norm_num [validate, EINVAL])]

/-- Witness for C9 at the corrupted-version handle. -/
theorem validate_rejects_null_and_bad_version_witness :
    validate (some badVersionHandle) = -EINVAL ∧
      dynamicCast (some badVersionHandle) = none ∧
      validate none = -EINVAL ∧ dynamicCast none = none :=
  validate_rejects_null_and_bad_version badVersionHandle
    (by decide) (by decide) (by decide) (by decide)

/-- C8: on a handle failing `validate`, each of the four operations returns
the negative invalid-argument result `-EINVAL` immediately and leaves the
handle unchanged (and produces no access pointer and no sync call). -/
theorem invalid_handle_rejected_by_all_ops (h : Option PrivateHandle)
    (backend : PrivateHandle → Int × PrivateHandle) (callerPid : Nat)
    (munmapOk moduleResolved : Bool) (usage : Nat)
    (hv : validate h < 0) :
    (-EINVAL : Int) < 0 ∧
    gralloc_register_buffer backend callerPid h = (-EINVAL, h) ∧
    gralloc_unregister_buffer callerPid munmapOk h = (-EINVAL, h) ∧
    gralloc_lock h usage = ⟨-EINVAL, h, none⟩ ∧
    gralloc_unlock moduleResolved h = ⟨-EINVAL, h, false⟩ := by
  refine ⟨by norm_num [EINVAL], ?_, ?_, ?_, ?_⟩
  · simp only [gralloc_register_buffer]
    rw [if_pos hv]
  · simp only [gralloc_unregister_buffer]
    rw [if_pos hv]
  · simp only [gralloc_lock]
    rw [if_pos hv]
  · simp only [gralloc_unlock]
    rw [if_pos hv]

/-- Witness for C8 at the null handle. -/
theorem invalid_handle_rejected_by_all_ops_witness :
    (-EINVAL : Int) < 0 ∧
    gralloc_register_buffer noopBackend 1000 none = (-EINVAL, none) ∧
    gralloc_unregister_buffer 1000 true none = (-EINVAL, none) ∧
    gralloc_lock none 0x30 = ⟨-EINVAL, none, none⟩ ∧
    gralloc_unlock true none = ⟨-EINVAL, none, false⟩ :=
  invalid_handle_rejected_by_all_ops none noopBackend 1000 true true 0x30 (by decide)

/-- C3: unregistering a valid non-framebuffer handle whose recorded pid
differs from the caller's pid is a no-op that reports success: it returns
`0` and leaves every handle field unchanged. -/
theorem unregister_foreign_pid_noop (hnd : PrivateHandle) (callerPid : Nat)
    (munmapOk : Bool) (hv : validate (some hnd) = 0)
    (hfb : hnd.flags &&& PRIV_FLAGS_FRAMEBUFFER = 0)
    (hpid : hnd.pid ≠ callerPid) :
    gralloc_unregister_buffer callerPid munmapOk (some hnd) = (0, some hnd) := by
  rw [gralloc_unregister_buffer_valid callerPid munmapOk hnd hv,
    if_neg (by simp [hfb]), if_neg hpid]

/-- Witness for C3: pid 1000 handle, caller pid 2000. -/
theorem unregister_foreign_pid_noop_witness :
    gralloc_unregister_buffer 2000 true (some testHandle) = (0, some testHandle) :=
  unregister_foreign_pid_noop testHandle 2000 true (by decide) (by decide) (by decide)

/-- C4: on a valid framebuffer-flagged handle, register returns the failure
result `-EINVAL`, and unregister refuses to perform the unmap/cleanup,
leaving the handle unchanged. -/
theorem framebuffer_register_unregister_rejected (hnd : PrivateHandle)
    (backend : PrivateHandle → Int × PrivateHandle) (callerPid : Nat)
    (munmapOk : Bool) (hv : validate (some hnd) = 0)
    (hfb : hnd.flags &&& PRIV_FLAGS_FRAMEBUFFER ≠ 0) :
    (gralloc_register_buffer backend callerPid (some hnd)).1 = -EINVAL ∧
      gralloc_unregister_buffer callerPid munmapOk (some hnd) = (0, some hnd) := by
  constructor
  · rw [gralloc_register_buffer_valid backend callerPid hnd hv, if_pos hfb]
  · rw [gralloc_unregister_buffer_valid callerPid munmapOk hnd hv, if_pos hfb]

/-- Witness for C4 at a concrete framebuffer handle. -/
theorem framebuffer_register_unregister_rejected_witness :
    (gralloc_register_buffer noopBackend 1000 (some fbHandle)).1 = -EINVAL ∧
      gralloc_unregister_buffer 1000 true (some fbHandle) = (0, some fbHandle) :=
  framebuffer_register_unregister_rejected fbHandle noopBackend 1000 true
    (by decide) (by decide)

/-- C5: unregistering a valid non-framebuffer handle from the process that
registered it zeroes `base`, `lockState` and `writeOwner` and returns `0`,
for either outcome of the low-level unmap; a second unregister call on the
resulting handle again returns `0` and leaves those fields zero. -/
theorem unregister_owner_zeroes_idempotent (hnd : PrivateHandle)
    (callerPid : Nat) (m1 m2 : Bool) (hv : validate (some hnd) = 0)
    (hfb : hnd.flags &&& PRIV_FLAGS_FRAMEBUFFER = 0)
    (hpid : hnd.pid = callerPid) :
    gralloc_unregister_buffer callerPid m1 (some hnd) =
      (0, some { hnd with base := 0, lockState := 0, writeOwner := 0 }) ∧
    gralloc_unregister_buffer callerPid m2
        (some { hnd with base := 0, lockState := 0, writeOwner := 0 }) =
      (0, some { hnd with base := 0, lockState := 0, writeOwner := 0 }) := by
  constructor
  · rw [gralloc_unregister_buffer_valid callerPid m1 hnd hv,
      if_neg (by simp [hfb]), if_pos hpid]
  · rw [gralloc_unregister_buffer_valid callerPid m2 _ (validate_zeroed hnd hv),
      if_neg (by simp [hfb]), if_pos (by simpa using hpid)]

/-- Witness for C5: the test handle unregistered twice by its own pid. -/
theorem unregister_owner_zeroes_idempotent_witness :
    gralloc_unregister_buffer 1000 true (some testHandle) =
      (0, some { testHandle with base := 0, lockState := 0, writeOwner := 0 }) ∧
    gralloc_unregister_buffer 1000 false
        (some { testHandle with base := 0, lockState := 0, writeOwner := 0 }) =
      (0, some { testHandle with base := 0, lockState := 0, writeOwner := 0 }) :=
  unregister_owner_zeroes_idempotent testHandle 1000 true false
    (by decide) (by decide) (by decide)

/-- C6 counterexample: registering a valid framebuffer handle recorded with
pid 999 from caller pid 1000 fails with `-EINVAL`, yet the handle's pid
field has been overwritten with the caller's pid — `hnd->pid = getpid()`
executes before the flag checks, so pid is not recorded only on success. -/
theorem register_records_pid_only_on_success_cex :
    fbHandle.pid = 999 ∧
      (gralloc_register_buffer noopBackend 1000 (some fbHandle)).1 = -EINVAL ∧
      (gralloc_register_buffer noopBackend 1000 (some fbHandle)).2 =
        some { fbHandle with pid := 1000 } := by
  decide

/-- C6 (amended): register records the calling process id into the handle
on every call that passes validation, including the failing paths; on a
failing path (framebuffer flag, or a flag combination naming neither the
framebuffer nor the ION backing) it returns failure and leaves the handle
unmapped with every field except `pid` unmodified, while `pid` is
overwritten with the caller's process id. -/
theorem register_failure_paths_set_pid (hnd : PrivateHandle)
    (backend : PrivateHandle → Int × PrivateHandle) (callerPid : Nat)
    (hv : validate (some hnd) = 0)
    (hfail : hnd.flags &&& PRIV_FLAGS_FRAMEBUFFER ≠ 0 ∨
      hnd.flags &&& PRIV_FLAGS_USES_ION = 0) :
    gralloc_register_buffer backend callerPid (some hnd) =
      (-EINVAL, some { hnd with pid := callerPid }) := by
  rw [gralloc_register_buffer_valid backend callerPid hnd hv]
  rcases hfail with hfb | hion
  · rw [if_pos hfb]
  · by_cases hfb : hnd.flags &&& PRIV_FLAGS_FRAMEBUFFER ≠ 0
    · rw [if_pos hfb]
    · rw [if_neg hfb, if_neg (by simp [hion])]

/-- Witness for the amended C6 theorem at the framebuffer handle. -/
theorem register_failure_paths_set_pid_witness :
    gralloc_register_buffer noopBackend 1000 (some fbHandle) =
      (-EINVAL, some { fbHandle with pid := 1000 }) :=
  register_failure_paths_set_pid fbHandle noopBackend 1000
    (by decide) (Or.inl (by decide))

/-- C7: on a valid handle, lock returns success, produces the handle's
stored base address as the access pointer exactly when the requested usage
intersects the CPU read or CPU write masks, and produces no pointer when it
intersects neither. -/
theorem lock_vaddr_iff_cpu_usage (hnd : PrivateHandle) (usage : Nat)
    (hv : validate (some hnd) = 0) :
    (gralloc_lock (some hnd) usage).result = 0 ∧
    ((gralloc_lock (some hnd) usage).vaddr = some hnd.base ↔
      usage &&& (GRALLOC_USAGE_SW_READ_MASK ||| GRALLOC_USAGE_SW_WRITE_MASK) ≠ 0) ∧
    (usage &&& (GRALLOC_USAGE_SW_READ_MASK ||| GRALLOC_USAGE_SW_WRITE_MASK) = 0 →
      (gralloc_lock (some hnd) usage).vaddr = none) := by
  rw [gralloc_lock_valid hnd usage hv]
  refine ⟨rfl, ?_, ?_⟩
  · by_cases hc : usage &&& (GRALLOC_USAGE_SW_READ_MASK ||| GRALLOC_USAGE_SW_WRITE_MASK) ≠ 0
    · simp [hc]
    · simp [hc]
  · intro hc
    simp [hc]

/-- Witness for C7: CPU usage `0x33` produces the base pointer, usage `0`
produces none; both calls return success. -/
theorem lock_vaddr_iff_cpu_usage_witness :
    ((gralloc_lock (some testHandle) 0x33).result = 0 ∧
      ((gralloc_lock (some testHandle) 0x33).vaddr = some testHandle.base ↔
        0x33 &&& (GRALLOC_USAGE_SW_READ_MASK ||| GRALLOC_USAGE_SW_WRITE_MASK) ≠ 0) ∧
      (0x33 &&& (GRALLOC_USAGE_SW_READ_MASK ||| GRALLOC_USAGE_SW_WRITE_MASK) = 0 →
        (gralloc_lock (some testHandle) 0x33).vaddr = none)) ∧
    (gralloc_lock (some testHandle) 0).vaddr = none :=
  ⟨lock_vaddr_iff_cpu_usage testHandle 0x33 (by decide),
    (lock_vaddr_iff_cpu_usage testHandle 0 (by decide)).2.2 (by decide)⟩

/-- The test handle after a write-capable lock (`writeOwner` nonzero). -/
def writerHandle : PrivateHandle :=
  { testHandle with writeOwner := 0x30 }

/-- C2: on valid ION-flagged handles, a lock with write-capable usage
leaves `writeOwner` nonzero; a subsequent lock with read-only usage resets
it to zero; unlock issues the cache-sync call exactly when `writeOwner` is
nonzero at the time of unlock (given the external module-registry lookup
`hw_get_module` succeeds, which gates the call in the code), and unlock
leaves the handle unchanged, so `writeOwner` persists until overwritten by
the next lock. -/
theorem lock_unlock_write_owner_protocol (hnd h : PrivateHandle)
    (uW uR : Nat) (m : Bool)
    (hv1 : validate (some hnd) = 0)
    (hion1 : hnd.flags &&& PRIV_FLAGS_USES_ION ≠ 0)
    (hW : uW &&& GRALLOC_USAGE_SW_WRITE_MASK ≠ 0)
    (hR : uR &&& GRALLOC_USAGE_SW_WRITE_MASK = 0)
    (hv2 : validate (some h) = 0)
    (hion2 : h.flags &&& PRIV_FLAGS_USES_ION ≠ 0) :
    (∃ h1, (gralloc_lock (some hnd) uW).handle = some h1 ∧ h1.writeOwner ≠ 0 ∧
      ∃ h2, (gralloc_lock (some h1) uR).handle = some h2 ∧ h2.writeOwner = 0) ∧
    ((gralloc_unlock m (some h)).syncCalled = true ↔
      m = true ∧ h.writeOwner ≠ 0) ∧
    (gralloc_unlock m (some h)).handle = some h := by
  refine ⟨⟨{ hnd with writeOwner := uW &&& GRALLOC_USAGE_SW_WRITE_MASK }, ?_, ?_,
      ⟨{ hnd with writeOwner := uR &&& GRALLOC_USAGE_SW_WRITE_MASK }, ?_, ?_⟩⟩, ?_, ?_⟩
  · rw [gralloc_lock_valid hnd uW hv1]
    simp [hion1]
  · simpa using hW
  · rw [gralloc_lock_valid _ uR
      (validate_writeOwner hnd (uW &&& GRALLOC_USAGE_SW_WRITE_MASK) hv1)]
    simp [hion1]
  · simpa using hR
  · by_cases hwo : h.writeOwner = 0
    · rw [gralloc_unlock_valid m h hv2, if_neg (by simp [hwo])]
      simp [hwo]
    · rw [gralloc_unlock_valid m h hv2, if_pos ⟨hion2, hwo⟩]
      simp [hwo]
  · rw [gralloc_unlock_valid m h hv2]
    split <;> rfl

/-- Witness for C2: write lock with usage `0x30`, read lock with usage
`0x03`, and unlock on a handle whose `writeOwner` is set. -/
theorem lock_unlock_write_owner_protocol_witness :
    (∃ h1, (gralloc_lock (some testHandle) 0x30).handle = some h1 ∧
      h1.writeOwner ≠ 0 ∧
      ∃ h2, (gralloc_lock (some h1) 0x03).handle = some h2 ∧ h2.writeOwner = 0) ∧
    ((gralloc_unlock true (some writerHandle)).syncCalled = true ↔
      true = true ∧ writerHandle.writeOwner ≠ 0) ∧
    (gralloc_unlock true (some writerHandle)).handle = some writerHandle :=
  lock_unlock_write_owner_protocol testHandle writerHandle 0x30 0x03 true
    (by decide) (by decide) (by decide) (by decide) (by decide) (by decide)

/-- C10: lock and unlock fail exactly on handles that fail `validate`; on
every handle passing `validate` they return `0` regardless of registration
state, lock state, or backing flags, and when CPU usage is requested lock
hands back the handle's stored base address as the access pointer. -/
theorem lock_unlock_error_iff_invalid (h : Option PrivateHandle)
    (usage : Nat) (m : Bool) :
    ((gralloc_lock h usage).result = 0 ↔ validate h = 0) ∧
    ((gralloc_unlock m h).result = 0 ↔ validate h = 0) ∧
    (validate h = 0 →
      usage &&& (GRALLOC_USAGE_SW_READ_MASK ||| GRALLOC_USAGE_SW_WRITE_MASK) ≠ 0 →
      (gralloc_lock h usage).vaddr = Option.map PrivateHandle.base h) := by
  rcases validate_cases h with h0 | he
  · cases h with
    | none => exact absurd h0 (by norm_num [validate, EINVAL])
    | some hnd =>
      refine ⟨?_, ?_, ?_⟩
      · rw [gralloc_lock_valid hnd usage h0]
        exact iff_of_true rfl h0
      · rw [gralloc_unlock_valid m hnd h0]
        refine iff_of_true ?_ h0
        split <;> rfl
      · intro _ hc
        rw [gralloc_lock_valid hnd usage h0]
        simp [hc]
  · have hne : validate h ≠ 0 := by
      rw [he]
      norm_num [EINVAL]
    have hlt : validate h < 0 := validate_lt_of_ne_zero hne
    have hEne : (-EINVAL : Int) ≠ 0 := by norm_num [EINVAL]
    refine ⟨?_, ?_, ?_⟩
    · simp only [gralloc_lock]
      rw [if_pos hlt]
      exact iff_of_false hEne hne
    · simp only [gralloc_unlock]
      rw [if_pos hlt]
      exact iff_of_false hEne hne
    · intro h0 _
      exact absurd h0 hne

/-- Witness for C10 at a concrete valid handle with CPU usage. -/
theorem lock_unlock_error_iff_invalid_witness :
    ((gralloc_lock (some testHandle) 0x33).result = 0 ↔
      validate (some testHandle) = 0) ∧
    ((gralloc_unlock true (some testHandle)).result = 0 ↔
      validate (some testHandle) = 0) ∧
    (gralloc_lock (some testHandle) 0x33).vaddr =
      Option.map PrivateHandle.base (some testHandle) :=
  ⟨(lock_unlock_error_iff_invalid (some testHandle) 0x33 true).1,
    (lock_unlock_error_iff_invalid (some testHandle) 0x33 true).2.1,
    (lock_unlock_error_iff_invalid (some testHandle) 0x33 true).2.2
      (by decide) (by decide)⟩

end Gralloc
